import Mathlib

/-!
Verification development for the lightbus message-handling core.

The Python sources embedded here are `lightbus/message.py` (the RpcMessage,
ResultMessage and EventMessage envelopes), `lightbus/api.py` (the Registry)
and `lightbus/transports/base.py` (the EventTransport contract).  Python
dictionaries are modelled as ordered association lists with string keys,
Python values appearing in envelopes as the inductive `PyVal` (string,
boolean or None), and Python truthiness as `PyVal.truthy`.  Fallible
operations return `Except String`, the string being the exception message
built exactly as the source builds it.
-/

deriving instance DecidableEq for Except

namespace Lightbus

/-- PyVal models the Python values that appear in envelope fields and wire
dictionaries: strings, booleans and None. -/
inductive PyVal where
| str (s : String)
| bool (b : Bool)
| none
deriving DecidableEq, Repr

/-- Python truthiness of a `PyVal`: empty strings, False and None are falsy. -/
def PyVal.truthy : PyVal → Bool
| .str s => !s.isEmpty
| .bool b => b
| .none => false

/-- Python str() of a `PyVal`, as used by `str(self.result)` in
`ResultMessage.to_dict`. -/
def pyStr : PyVal → String
| .str s => s
| .bool true => "True"
| .bool false => "False"
| .none => "None"

/-- Wire dictionary: ordered association list from string keys to values,
modelling a Python dict (which preserves insertion order). -/
abbrev Dict := List (String × PyVal)

/-- Membership test `key in dictionary` on a Python dict. -/
def hasKey : Dict → String → Bool
| [], _ => false
| (k₀, _) :: t, k => if k₀ = k then true else hasKey t k

/-- Python `dictionary.get(key, default)`: the stored value when the key is
present, the default otherwise. -/
def dGet : Dict → String → PyVal → PyVal
| [], _, dv => dv
| (k₀, v) :: t, k, dv => if k₀ = k then v else dGet t k dv

/-- Keys of a dictionary in order, as `dictionary.keys()`. -/
def dictKeys (d : Dict) : List String := d.map Prod.fst

/-- The single-quote character, used to reproduce the quoting in the source
error messages. -/
def sq : String := String.singleton (Char.ofNat 39)

/-- Python `', '.join(dictionary.keys())`. -/
def joinKeys (d : Dict) : String := String.intercalate ", " (dictKeys d)

/-- Python `k.startswith('kw:')` on the character list of a key. -/
def kwPrefixed (k : String) : Bool :=
  match k.data with
  | a :: b :: c :: _ => a == 'k' && b == 'w' && c == ':'
  | _ => false

/-- Python `k[3:]`: the key with its first three characters removed. -/
def strTail3 (k : String) : String := String.mk (k.data.drop 3)

/-- Python `'kw:{}'.format(k)`: the key prefixed with the three characters
k, w, colon. -/
def kwKey (k : String) : String := String.mk ('k' :: 'w' :: ':' :: k.data)

/-- Decoder side of the keyword-argument encoding:
`{k[3:]: v for k, v in dictionary.items() if k.startswith('kw:')}`. -/
def extractKw (d : Dict) : List (String × PyVal) :=
  d.filterMap (fun kv => if kwPrefixed kv.1 then some (strTail3 kv.1, kv.2) else Option.none)

/-- Encoder side of the keyword-argument encoding:
`{'kw:{}'.format(k): v for k, v in self.kwargs.items()}`. -/
def kwEntries (l : List (String × PyVal)) : Dict :=
  l.map (fun kv => (kwKey kv.1, kv.2))

/-- Standard base64 alphabet used by Python `base64.b64encode`. -/
def b64Alphabet : List Char :=
  "ABCDEFGHIJKLMNOPQRSTUVWXYZabcdefghijklmnopqrstuvwxyz0123456789+/".data

/-- Character of the standard base64 alphabet at a 6-bit index. -/
def b64CharAt (n : Nat) : Char := b64Alphabet.getD n 'A'

/-- Standard base64 encoding of a byte list, three bytes to four characters
with trailing = padding, as Python `base64.b64encode`. -/
def b64encodeChars : List Nat → List Char
| b₀ :: b₁ :: b₂ :: rest =>
    b64CharAt (b₀ / 4) :: b64CharAt ((b₀ % 4) * 16 + b₁ / 16) ::
    b64CharAt ((b₁ % 16) * 4 + b₂ / 64) :: b64CharAt (b₂ % 64) :: b64encodeChars rest
| [b₀, b₁] =>
    [b64CharAt (b₀ / 4), b64CharAt ((b₀ % 4) * 16 + b₁ / 16),
     b64CharAt ((b₁ % 16) * 4), '=']
| [b₀] => [b64CharAt (b₀ / 4), b64CharAt ((b₀ % 4) * 16), '=', '=']
| [] => []

/-- Python `b64encode(bytes).decode('utf8')`. -/
def b64encode (bytes : List Nat) : String := String.mk (b64encodeChars bytes)

/-- The claim side of the rpc_id encoding, following the words of the spec:
URL-safe base64 replaces the two final alphabet characters plus and slash
with minus and underscore, as Python `base64.urlsafe_b64encode`. -/
def urlsafeB64encodeSpec (bytes : List Nat) : String :=
  String.mk ((b64encodeChars bytes).map
    (fun c => if c = '+' then '-' else if c = '/' then '_' else c))

/-- Value held in the kwargs attribute of an envelope.  In the source the
constructor parameter defaults to `Optional[None]`, which evaluates to the
class NoneType: a truthy object that is neither None nor a dict.  The
`sentinel` constructor is that default object, `pynone` an explicit None,
and `dict` an actual dictionary of keyword arguments. -/
inductive KwField where
| sentinel
| pynone
| dict (l : List (String × PyVal))
deriving DecidableEq, Repr

/-- Python truthiness of a kwargs value: None and the empty dict are falsy;
the NoneType class object (the `Optional[None]` default) is truthy. -/
def KwField.truthy : KwField → Bool
| .sentinel => true
| .pynone => false
| .dict l => !l.isEmpty

/-- RpcMessage envelope fields, as assigned by `RpcMessage.__init__`. -/
structure RpcMessage where
  rpc_id : PyVal
  api_name : PyVal
  procedure_name : PyVal
  kwargs : KwField
  return_path : PyVal
deriving DecidableEq, Repr

/-- RpcMessage constructor.  The rpc_id is `rpc_id or
b64encode(uuid1().bytes).decode('utf8')`: a falsy supplied id is replaced
by the standard base64 encoding of the 16 bytes produced by `uuid1()`,
passed here as `uuidBytes`.  All other attributes are stored as given
(kwargs defaults to the truthy `Optional[None]` sentinel when omitted). -/
def RpcMessage.init (uuidBytes : List Nat) (api_name procedure_name : PyVal)
    (kwargs : KwField) (return_path : PyVal) (rpc_id : PyVal) : RpcMessage :=
  RpcMessage.mk
    (if rpc_id.truthy then rpc_id else .str (b64encode uuidBytes))
    api_name procedure_name kwargs return_path

/-- RpcMessage.to_dict: the four scalar entries (return_path replaced by the
empty string when falsy) followed by one `kw:`-prefixed entry per keyword
argument.  When kwargs is not a dict (the None or `Optional[None]` cases)
the `self.kwargs.items()` call raises, modelled as `Option.none`. -/
def RpcMessage.to_dict (m : RpcMessage) : Option Dict :=
  match m.kwargs with
  | .dict l => some
      ([("rpc_id", m.rpc_id), ("api_name", m.api_name),
        ("procedure_name", m.procedure_name),
        ("return_path", if m.return_path.truthy then m.return_path else .str "")]
       ++ kwEntries l)
  | _ => Option.none

/-- Error message for a required key missing from an envelope dictionary
(the source format string names RpcMessage for EventMessage as well). -/
def missingKeyMsg (key : String) (d : Dict) : String :=
  "Required key " ++ key ++ " missing in RpcMessage data. Found keys: " ++ joinKeys d

/-- Error message for a required key that is present but has a falsy value. -/
def emptyKeyMsg (key clsName : String) : String :=
  "Required key " ++ sq ++ key ++ sq ++ " is present in " ++ clsName ++
  " data, but is empty."

/-- RpcMessage.from_dict: presence of api_name, procedure_name and rpc_id is
checked in that order, then non-emptiness of rpc_id, api_name and
procedure_name in that order; return_path is read with `.get` and never
validated; keys starting with `kw:` become kwargs; the message is built
through the constructor. -/
def RpcMessage.from_dict (uuidBytes : List Nat) (d : Dict) : Except String RpcMessage :=
  if ¬ hasKey d "api_name" then .error (missingKeyMsg "api_name" d)
  else if ¬ hasKey d "procedure_name" then .error (missingKeyMsg "procedure_name" d)
  else if ¬ hasKey d "rpc_id" then .error (missingKeyMsg "rpc_id" d)
  else if ¬ (dGet d "rpc_id" .none).truthy then .error (emptyKeyMsg "rpc_id" "RpcMessage")
  else if ¬ (dGet d "api_name" .none).truthy then .error (emptyKeyMsg "api_name" "RpcMessage")
  else if ¬ (dGet d "procedure_name" .none).truthy then
    .error (emptyKeyMsg "procedure_name" "RpcMessage")
  else .ok (RpcMessage.init uuidBytes (dGet d "api_name" .none)
    (dGet d "procedure_name" .none) (.dict (extractKw d)) (dGet d "return_path" .none)
    (dGet d "rpc_id" .none))

/-- Constructor argument of ResultMessage: either an exception-like value
(carrying its str() rendering and its formatted traceback) or a plain
value. -/
inductive ResultInput where
| exc (message : String) (tb : String)
| val (v : PyVal)
deriving DecidableEq, Repr

/-- ResultMessage envelope fields, as assigned by `ResultMessage.__init__`.
The error and trace attributes hold whatever value was supplied, so they
are modelled as `PyVal` rather than `Bool` and `Option String`. -/
structure ResultMessage where
  rpc_id : PyVal
  result : PyVal
  error : PyVal
  trace : PyVal
deriving DecidableEq, Repr

/-- ResultMessage constructor: an exception-like result forces result to its
str() rendering, error to True and trace to the joined output of
`traceback.format_exception`; any other result stores the result, error and
trace arguments unchanged (their Python defaults are False and None). -/
def ResultMessage.init (result : ResultInput) (rpc_id : PyVal) (error : PyVal)
    (trace : PyVal) : ResultMessage :=
  match result with
  | .exc m tb => ResultMessage.mk rpc_id (.str m) (.bool true) (.str tb)
  | .val v => ResultMessage.mk rpc_id v error trace

/-- ResultMessage.to_dict: when error is truthy the dictionary carries the
stringified result, the rpc_id, the literal True and the trace; otherwise
the raw result, the rpc_id and the literal False, with no trace entry. -/
def ResultMessage.to_dict (m : ResultMessage) : Dict :=
  if m.error.truthy then
    [("result", .str (pyStr m.result)), ("rpc_id", m.rpc_id),
     ("error", .bool true), ("trace", m.trace)]
  else
    [("result", m.result), ("rpc_id", m.rpc_id), ("error", .bool false)]

/-- Error message for a key not present in ResultMessage data. -/
def notPresentMsg (key : String) (d : Dict) : String :=
  "Required key " ++ sq ++ key ++ sq ++ " not present in ResultMessage data. Found keys: "
  ++ joinKeys d

/-- ResultMessage.from_dict: only presence of result and rpc_id is checked
(no emptiness checks); error defaults to False and trace to None when
absent; the message is built through the constructor with a non-exception
result. -/
def ResultMessage.from_dict (d : Dict) : Except String ResultMessage :=
  if ¬ hasKey d "result" then .error (notPresentMsg "result" d)
  else if ¬ hasKey d "rpc_id" then .error (notPresentMsg "rpc_id" d)
  else .ok (ResultMessage.init (.val (dGet d "result" .none)) (dGet d "rpc_id" .none)
    (dGet d "error" (.bool false)) (dGet d "trace" .none))

/-- EventMessage envelope fields, as assigned by `EventMessage.__init__`. -/
structure EventMessage where
  api_name : PyVal
  event_name : PyVal
  kwargs : KwField
deriving DecidableEq, Repr

/-- EventMessage constructor: `self.kwargs = kwargs or {}` replaces a falsy
kwargs argument (None or an empty dict) with the empty dict; a truthy one
(including the `Optional[None]` default sentinel) is stored unchanged. -/
def EventMessage.init (api_name event_name : PyVal) (kwargs : KwField) : EventMessage :=
  EventMessage.mk api_name event_name (if kwargs.truthy then kwargs else .dict [])

/-- EventMessage.to_dict: the two scalar entries followed by one
`kw:`-prefixed entry per keyword argument; `Option.none` models the raised
attribute error when kwargs is not a dict. -/
def EventMessage.to_dict (m : EventMessage) : Option Dict :=
  match m.kwargs with
  | .dict l => some
      ([("api_name", m.api_name), ("event_name", m.event_name)] ++ kwEntries l)
  | _ => Option.none

/-- EventMessage.from_dict: presence of api_name and event_name is checked in
that order (the missing-key message names RpcMessage, as in the source),
then non-emptiness of api_name and event_name; keys starting with `kw:`
become kwargs. -/
def EventMessage.from_dict (d : Dict) : Except String EventMessage :=
  if ¬ hasKey d "api_name" then .error (missingKeyMsg "api_name" d)
  else if ¬ hasKey d "event_name" then .error (missingKeyMsg "event_name" d)
  else if ¬ (dGet d "api_name" .none).truthy then .error (emptyKeyMsg "api_name" "EventMessage")
  else if ¬ (dGet d "event_name" .none).truthy then
    .error (emptyKeyMsg "event_name" "EventMessage")
  else .ok (EventMessage.init (dGet d "api_name" .none) (dGet d "event_name" .none)
    (.dict (extractKw d)))

/-- Api instance registered in the Registry: its bus name together with an
instance identity, so that distinct instances with equal names can be told
apart. -/
structure Api where
  name : String
  instId : Nat
deriving DecidableEq, Repr

/-- Argument handed to `Registry.add`: either a constructed Api instance or
a type object (the Api class itself). -/
inductive RegArg where
| inst (a : Api)
| typeObj
deriving DecidableEq, Repr

/-- Registry state: the `_apis` dict from name to Api instance. -/
abbrev Registry := List (String × Api)

/-- Python dict assignment `self._apis[api.meta.name] = api`: replace in
place when the key exists, append otherwise. -/
def dictSet : Registry → String → Api → Registry
| [], k, v => [(k, v)]
| (k₀, v₀) :: t, k, v => if k₀ = k then (k, v) :: t else (k₀, v₀) :: dictSet t k v

/-- Lookup in the `_apis` dict. -/
def regLookup : Registry → String → Option Api
| [], _ => Option.none
| (k₀, v) :: t, k => if k₀ = k then some v else regLookup t k

/-- Error message of InvalidApiRegistryEntry. -/
def invalidRegistryEntryMsg : String :=
  "An attempt was made to add a type to the API registry. This is probably " ++
  "because you are trying to add the API class, rather than an instance of " ++
  "the API class."

/-- Error message of UnknownApi for a requested name. -/
def unknownApiMsg (name : String) : String :=
  "An API named " ++ sq ++ name ++ sq ++ " was requested from the registry " ++
  "but the registry does not recognise it. Maybe the incorrect API name " ++
  "was specified, or maybe the API has not been registered."

/-- Registry.add: raises InvalidApiRegistryEntry on a type object, otherwise
stores the instance under its meta name. -/
def Registry.add (r : Registry) (e : RegArg) : Except String Registry :=
  match e with
  | .typeObj => .error invalidRegistryEntryMsg
  | .inst a => .ok (dictSet r a.name a)

/-- Registry.get: the stored instance, or UnknownApi when the name is
absent. -/
def Registry.get (r : Registry) (name : String) : Except String Api :=
  match regLookup r name with
  | some a => .ok a
  | Option.none => .error (unknownApiMsg name)

/-- Registry.all: the values of the `_apis` dict in insertion order. -/
def Registry.allApis (r : Registry) : List Api := r.map Prod.snd

/-- Registry built by a sequence of successful `add` calls on instances,
starting from the empty registry of `Registry.__init__`. -/
def applyAdds (ops : List Api) : Registry :=
  ops.foldl (fun r a => dictSet r a.name a) []

/-- EventTransport.get_listener_group_key default implementation: `return
uuid1()`.  The freshly generated uuid is passed explicitly; the api name,
event name and options are ignored. -/
def get_listener_group_key (freshUuid : Nat) (api_name event_name : String)
    (options : Dict) : Nat :=
  freshUuid

/-- Modelled from the spec: `MessageConsumptionContext` lives in
`lightbus/utilities.py`, which is not among the sources; only its
construction in `EventTransport.consume_events` is.  Per spec section 4.4
the context fetches a batch, hands each message to the consumer, lets
failures propagate, may be cancelled mid-batch, and invokes
`consumption_complete(ack_token)` only after successful handling of the
whole batch.  `CtxAction` records the observable actions of one pass. -/
inductive CtxAction where
| fetched (events : List EventMessage) (tok : Nat)
| handled (e : EventMessage)
| raisedOn (e : EventMessage)
| cancelled
| acked (tok : Nat)
deriving DecidableEq, Repr

/-- Modelled from the spec: the handling loop over one fetched batch.  The
handler reports success or failure per message; `cancelAt` is the index at
which the surrounding task is cancelled, if any.  Returns the actions
performed and whether the whole batch was handled successfully. -/
def handleLoop (handler : EventMessage → Bool) (cancelAt : Option Nat) :
    Nat → List EventMessage → List CtxAction × Bool
| _, [] => ([], true)
| i, e :: rest =>
    if cancelAt = some i then ([.cancelled], false)
    else if handler e then
      let p := handleLoop handler cancelAt (i + 1) rest
      (.handled e :: p.1, p.2)
    else ([.raisedOn e], false)

/-- Modelled from the spec: one pass of the consumption context built by
`EventTransport.consume_events`: fetch the batch, run the handling loop,
and call `consumption_complete` with the ack token only when the loop
completed successfully. -/
def runConsumption (handler : EventMessage → Bool) (cancelAt : Option Nat)
    (events : List EventMessage) (tok : Nat) : List CtxAction :=
  let p := handleLoop handler cancelAt 0 events
  (.fetched events tok :: p.1) ++ (if p.2 then [.acked tok] else [])

/-! Well-formedness predicates used by the round-trip claim: the required
fields of an envelope are non-empty, and for ResultMessage the error flag is
an actual boolean with a stringified result and a present trace on the error
side, as the data model of the spec describes. -/

/-- Well-formed RpcMessage: rpc_id, api_name, procedure_name and return_path
are all truthy. -/
def wfRpc (m : RpcMessage) : Prop :=
  m.rpc_id.truthy = true ∧ m.api_name.truthy = true ∧ m.procedure_name.truthy = true ∧
  m.return_path.truthy = true

/-- Well-formed ResultMessage: rpc_id and result are truthy, error is a
boolean, and on the error side the result is a string (the stringified
exception) and the trace is present. -/
def wfResult (m : ResultMessage) : Prop :=
  m.rpc_id.truthy = true ∧ m.result.truthy = true ∧
  (m.error = .bool true ∨ m.error = .bool false) ∧
  (m.error = .bool true → (∃ s, m.result = .str s) ∧ m.trace ≠ .none)

/-- Well-formed EventMessage: api_name and event_name are truthy. -/
def wfEvent (m : EventMessage) : Prop :=
  m.api_name.truthy = true ∧ m.event_name.truthy = true

/-- Invariant of every reachable registry: each stored instance is keyed by
its own name, and keys are unique. -/
def regWF (r : Registry) : Prop :=
  (∀ k v, (k, v) ∈ r → v.name = k) ∧ (r.map Prod.fst).Nodup

/-- Sample 16-byte identifier with the uuid1 version and variant bits set,
whose standard base64 encoding contains the slash character. -/
def uuid1SampleBytes : List Nat :=
  [255, 255, 255, 255, 255, 255, 31, 255, 191, 255, 255, 255, 255, 255, 255, 255]

/-! Helper lemmas about the keyword-argument key encoding. -/

theorem kwPrefixed_kwKey (k : String) : kwPrefixed (kwKey k) = true := by
  cases k
  rfl

theorem strTail3_kwKey (k : String) : strTail3 (kwKey k) = k := by
  cases k
  rfl

theorem kwKey_strTail3 (k : String) (h : kwPrefixed k = true) : kwKey (strTail3 k) = k := by
  obtain ⟨d⟩ := k
  rcases d with _ | ⟨a, _ | ⟨b, _ | ⟨c, t⟩⟩⟩
  · simp [kwPrefixed] at h
  · simp [kwPrefixed] at h
  · simp [kwPrefixed] at h
  · simp only [kwPrefixed, Bool.and_eq_true, beq_iff_eq] at h
    obtain ⟨⟨rfl, rfl⟩, rfl⟩ := h
    rfl

theorem kwKey_eq_append (k : String) : kwKey k = "kw:" ++ k := by
  cases k
  rfl

theorem extractKw_cons_not (k : String) (v : PyVal) (d : Dict) (h : kwPrefixed k = false) :
    extractKw ((k, v) :: d) = extractKw d := by
  simp [extractKw, List.filterMap_cons, h]

theorem extractKw_kwEntries (l : List (String × PyVal)) : extractKw (kwEntries l) = l := by
  induction l with
  | nil => rfl
  | cons kv t ih =>
    obtain ⟨k, v⟩ := kv
    simp [kwEntries, extractKw, List.filterMap_cons, kwPrefixed_kwKey, strTail3_kwKey] at *
    exact ih

theorem kwPrefixed_rpc_id : kwPrefixed "rpc_id" = false := by decide

theorem kwPrefixed_api_name : kwPrefixed "api_name" = false := by decide

theorem kwPrefixed_procedure_name : kwPrefixed "procedure_name" = false := by decide

theorem kwPrefixed_return_path : kwPrefixed "return_path" = false := by decide

theorem kwPrefixed_event_name : kwPrefixed "event_name" = false := by decide

/-! Round-trip auxiliary lemmas, one per envelope type. -/

theorem rpc_roundtrip_aux (u : List Nat) (rid api proc rp : PyVal)
    (l : List (String × PyVal)) (h₁ : rid.truthy = true) (h₂ : api.truthy = true)
    (h₃ : proc.truthy = true) (h₄ : rp.truthy = true) :
    RpcMessage.from_dict u
      ([("rpc_id", rid), ("api_name", api), ("procedure_name", proc),
        ("return_path", if rp.truthy then rp else .str "")] ++ kwEntries l) =
      .ok (RpcMessage.mk rid api proc (.dict l) rp) := by
  rw [RpcMessage.from_dict]
  simp [hasKey, dGet, h₁, h₂, h₃, h₄, RpcMessage.init,
    extractKw_cons_not _ _ _ kwPrefixed_rpc_id,
    extractKw_cons_not _ _ _ kwPrefixed_api_name,
    extractKw_cons_not _ _ _ kwPrefixed_procedure_name,
    extractKw_cons_not _ _ _ kwPrefixed_return_path, extractKw_kwEntries]

theorem result_roundtrip_aux (rid res er tr : PyVal)
    (hwf : wfResult (ResultMessage.mk rid res er tr))
    (hamend : er = .bool false → tr = .none) :
    ResultMessage.from_dict (ResultMessage.mk rid res er tr).to_dict =
      .ok (ResultMessage.mk rid res er tr) := by
  obtain ⟨hr, hv, herb, herr⟩ := hwf
  rcases herb with he | he
  · obtain ⟨⟨s, hs⟩, htr⟩ := herr he
    subst he
    subst hs
    simp [ResultMessage.to_dict, ResultMessage.from_dict, hasKey, dGet, PyVal.truthy,
      ResultMessage.init, pyStr]
  · have htr := hamend he
    subst he
    subst htr
    simp [ResultMessage.to_dict, ResultMessage.from_dict, hasKey, dGet, PyVal.truthy,
      ResultMessage.init]

theorem eventInit_dict (api ev : PyVal) (l : List (String × PyVal)) :
    EventMessage.init api ev (.dict l) = EventMessage.mk api ev (.dict l) := by
  cases l <;> simp [EventMessage.init, KwField.truthy]

theorem event_roundtrip_aux (api ev : PyVal) (l : List (String × PyVal))
    (h₁ : api.truthy = true) (h₂ : ev.truthy = true) :
    EventMessage.from_dict ([("api_name", api), ("event_name", ev)] ++ kwEntries l) =
      .ok (EventMessage.mk api ev (.dict l)) := by
  rw [EventMessage.from_dict]
  simp [hasKey, dGet, h₁, h₂, eventInit_dict,
    extractKw_cons_not _ _ _ kwPrefixed_api_name,
    extractKw_cons_not _ _ _ kwPrefixed_event_name, extractKw_kwEntries]

/-! Helper lemmas about the registry dict. -/

theorem regLookup_dictSet_self (r : Registry) (k : String) (v : Api) :
    regLookup (dictSet r k v) k = some v := by
  induction r with
  | nil => simp [dictSet, regLookup]
  | cons kv t ih =>
    obtain ⟨k₀, v₀⟩ := kv
    by_cases h : k₀ = k
    · subst h
      simp [dictSet, regLookup]
    · simp [dictSet, regLookup, h, ih]

theorem regLookup_dictSet_ne (r : Registry) (k k₁ : String) (v : Api) (h : k₁ ≠ k) :
    regLookup (dictSet r k v) k₁ = regLookup r k₁ := by
  induction r with
  | nil => simp [dictSet, regLookup, h.symm]
  | cons kv t ih =>
    obtain ⟨k₀, v₀⟩ := kv
    by_cases h₀ : k₀ = k
    · subst h₀
      simp [dictSet, regLookup, h.symm]
    · simp [dictSet, regLookup, h₀, ih]

theorem mem_keys_dictSet (r : Registry) (k k₁ : String) (v : Api) :
    k₁ ∈ (dictSet r k v).map Prod.fst ↔ k₁ ∈ r.map Prod.fst ∨ k₁ = k := by
  induction r with
  | nil => simp [dictSet]
  | cons kv t ih =>
    obtain ⟨k₀, v₀⟩ := kv
    by_cases h : k₀ = k
    · subst h
      simp [dictSet]
      tauto
    · simp [dictSet, h, ih]
      tauto

theorem regWF_nil : regWF [] := by
  constructor
  · intro k v h
    simp at h
  · simp

theorem regWF_tail (k₀ : String) (v₀ : Api) (t : Registry) (h : regWF ((k₀, v₀) :: t)) :
    regWF t := by
  obtain ⟨h₁, h₂⟩ := h
  simp only [List.map_cons, List.nodup_cons] at h₂
  exact ⟨fun k v hm => h₁ k v (List.mem_cons_of_mem _ hm), h₂.2⟩

theorem regWF_dictSet (r : Registry) (a : Api) (h : regWF r) : regWF (dictSet r a.name a) := by
  induction r with
  | nil =>
    constructor
    · intro k v hm
      rw [dictSet] at hm
      rcases List.mem_cons.1 hm with heq | hm₀
      · injection heq with e₁ e₂
        rw [e₂, e₁]
      · simp at hm₀
    · simp [dictSet]
  | cons kv t ih =>
    obtain ⟨k₀, v₀⟩ := kv
    obtain ⟨h₁, h₂⟩ := h
    simp only [List.map_cons, List.nodup_cons] at h₂
    have hwt : regWF t := ⟨fun k v hm => h₁ k v (List.mem_cons_of_mem _ hm), h₂.2⟩
    by_cases hk : k₀ = a.name
    · subst hk
      constructor
      · intro k v hm
        rw [dictSet, if_pos rfl] at hm
        rcases List.mem_cons.1 hm with heq | hm₀
        · injection heq with e₁ e₂
          rw [e₂, e₁]
        · exact h₁ k v (List.mem_cons_of_mem _ hm₀)
      · rw [dictSet, if_pos rfl]
        simp only [List.map_cons, List.nodup_cons]
        exact h₂
    · obtain ⟨ih₁, ih₂⟩ := ih hwt
      constructor
      · intro k v hm
        rw [dictSet, if_neg hk] at hm
        rcases List.mem_cons.1 hm with heq | hm₀
        · injection heq with e₁ e₂
          rw [e₂, e₁]
          exact h₁ k₀ v₀ (List.mem_cons_self _ _)
        · exact ih₁ k v hm₀
      · rw [dictSet, if_neg hk]
        simp only [List.map_cons, List.nodup_cons]
        refine ⟨fun hmem => ?_, ih₂⟩
        rcases (mem_keys_dictSet t a.name k₀ a).1 hmem with hmem₀ | hmem₀
        · exact h₂.1 hmem₀
        · exact hk hmem₀

theorem count_allApis_dictSet (r : Registry) (s : Api) (h : regWF r) :
    ((dictSet r s.name s).map Prod.snd).count s = 1 := by
  induction r with
  | nil => simp [dictSet]
  | cons kv t ih =>
    obtain ⟨k₀, v₀⟩ := kv
    obtain ⟨h₁, h₂⟩ := h
    simp only [List.map_cons, List.nodup_cons] at h₂
    have hwt : regWF t := ⟨fun k v hm => h₁ k v (List.mem_cons_of_mem _ hm), h₂.2⟩
    by_cases hk : k₀ = s.name
    · subst hk
      rw [dictSet, if_pos rfl]
      simp only [List.map_cons, List.count_cons_self]
      have hnm : s ∉ t.map Prod.snd := by
        intro hmem
        obtain ⟨kv, hkv, hsnd⟩ := List.mem_map.1 hmem
        obtain ⟨k₁, v₁⟩ := kv
        apply h₂.1
        have hname := h₁ k₁ v₁ (List.mem_cons_of_mem _ hkv)
        have hv₁ : v₁ = s := hsnd
        rw [hv₁] at hname
        rw [hname]
        exact List.mem_map_of_mem Prod.fst hkv
      rw [List.count_eq_zero.2 hnm]
    · have hv : v₀ ≠ s := by
        intro hvs
        apply hk
        have := h₁ k₀ v₀ (List.mem_cons_self _ _)
        rw [hvs] at this
        exact this.symm
      rw [dictSet, if_neg hk]
      simp only [List.map_cons]
      rw [List.count_cons_of_ne (Ne.symm hv)]
      exact ih hwt

theorem applyAdds_append_one (ops : List Api) (s : Api) :
    applyAdds (ops ++ [s]) = dictSet (applyAdds ops) s.name s := by
  simp [applyAdds, List.foldl_append]

theorem regWF_foldl (ops : List Api) : ∀ (r : Registry), regWF r →
    regWF (ops.foldl (fun r₀ a => dictSet r₀ a.name a) r) := by
  induction ops with
  | nil => intro r h; exact h
  | cons a t ih =>
    intro r h
    exact ih _ (regWF_dictSet r a h)

theorem regWF_applyAdds (ops : List Api) : regWF (applyAdds ops) :=
  regWF_foldl ops [] regWF_nil

theorem regLookup_foldl (ops : List Api) : ∀ (r : Registry) (name : String),
    (regLookup (ops.foldl (fun r₀ a => dictSet r₀ a.name a) r) name).isSome = true ↔
      ((regLookup r name).isSome = true ∨ ∃ a ∈ ops, a.name = name) := by
  induction ops with
  | nil => simp
  | cons a t ih =>
    intro r name
    rw [List.foldl_cons, ih]
    by_cases h : a.name = name
    · subst h
      simp only [regLookup_dictSet_self, Option.isSome_some, true_or, true_iff]
      exact Or.inr ⟨a, List.mem_cons_self _ _, rfl⟩
    · rw [regLookup_dictSet_ne _ _ _ _ (fun hc => h hc.symm)]
      constructor
      · rintro (hs | ⟨b, hb, hn⟩)
        · exact Or.inl hs
        · exact Or.inr ⟨b, List.mem_cons_of_mem _ hb, hn⟩
      · rintro (hs | ⟨b, hb, hn⟩)
        · exact Or.inl hs
        · rcases List.mem_cons.1 hb with rfl | hb₀
          · exact absurd hn h
          · exact Or.inr ⟨b, hb₀, hn⟩

/-! Helper lemmas about the consumption loop. -/

theorem handleLoop_ok_iff (h : EventMessage → Bool) (c : Option Nat) :
    ∀ (es : List EventMessage) (i : Nat),
      (handleLoop h c i es).2 = true ↔
        ((∀ e ∈ es, h e = true) ∧ ∀ j, j < es.length → c ≠ some (i + j)) := by
  intro es
  induction es with
  | nil =>
    intro i
    simp [handleLoop]
  | cons e t ih =>
    intro i
    rw [handleLoop]
    by_cases hc : c = some i
    · rw [if_pos hc]
      constructor
      · intro hfalse
        simp at hfalse
      · rintro ⟨-, hj⟩
        exact absurd (by rw [Nat.add_zero]; exact hc) (hj 0 (Nat.succ_pos _))
    · rw [if_neg hc]
      by_cases he : h e = true
      · rw [if_pos he]
        simp only []
        rw [ih (i + 1)]
        constructor
        · rintro ⟨hall, hj⟩
          refine ⟨fun e₀ he₀ => ?_, fun j hjl => ?_⟩
          · rcases List.mem_cons.1 he₀ with rfl | he₁
            · exact he
            · exact hall e₀ he₁
          · rcases j with _ | j₀
            · rw [Nat.add_zero]
              exact hc
            · rw [show i + (j₀ + 1) = i + 1 + j₀ by omega]
              exact hj j₀ (by simp at hjl; omega)
        · rintro ⟨hall, hj⟩
          refine ⟨fun e₀ he₀ => hall e₀ (List.mem_cons_of_mem _ he₀), fun j hjl => ?_⟩
          have := hj (j + 1) (by simpa using Nat.succ_lt_succ hjl)
          rw [show i + 1 + j = i + (j + 1) by omega]
          exact this
      · rw [if_neg he]
        constructor
        · intro hfalse
          simp at hfalse
        · rintro ⟨hall, -⟩
          exact absurd (hall e (List.mem_cons_self _ _)) he

theorem handleLoop_acked_not_mem (h : EventMessage → Bool) (c : Option Nat) :
    ∀ (es : List EventMessage) (i tok : Nat),
      CtxAction.acked tok ∉ (handleLoop h c i es).1 := by
  intro es
  induction es with
  | nil =>
    intro i tok
    simp [handleLoop]
  | cons e t ih =>
    intro i tok
    rw [handleLoop]
    by_cases hc : c = some i
    · rw [if_pos hc]
      simp
    · rw [if_neg hc]
      by_cases he : h e = true
      · rw [if_pos he]
        intro hmem
        rcases List.mem_cons.1 hmem with heq | hmem₀
        · exact CtxAction.noConfusion heq
        · exact ih (i + 1) tok hmem₀
      · rw [if_neg he]
        simp

theorem handleLoop_success_shape (h : EventMessage → Bool) (c : Option Nat) :
    ∀ (es : List EventMessage) (i : Nat), (handleLoop h c i es).2 = true →
      (handleLoop h c i es).1 = es.map CtxAction.handled := by
  intro es
  induction es with
  | nil =>
    intro i _
    rfl
  | cons e t ih =>
    intro i hok
    rw [handleLoop] at hok ⊢
    by_cases hc : c = some i
    · rw [if_pos hc] at hok
      simp at hok
    · rw [if_neg hc] at hok ⊢
      by_cases he : h e = true
      · rw [if_pos he] at hok ⊢
        simp only [List.map_cons, List.cons.injEq]
        exact ⟨trivial, ih (i + 1) hok⟩
      · rw [if_neg he] at hok
        simp at hok

theorem mem_extractKw_iff (dd : Dict) (k : String) (v : PyVal) :
    (k, v) ∈ extractKw dd ↔ (kwKey k, v) ∈ dd := by
  rw [extractKw, List.mem_filterMap]
  constructor
  · rintro ⟨⟨k₀, v₀⟩, hmem, hf⟩
    by_cases hp : kwPrefixed k₀ = true
    · rw [if_pos hp] at hf
      injection hf with hf₀
      injection hf₀ with e₁ e₂
      rw [← e₁, ← e₂, kwKey_strTail3 k₀ hp]
      exact hmem
    · rw [if_neg hp] at hf
      exact Option.noConfusion hf
  · intro hmem
    refine ⟨(kwKey k, v), hmem, ?_⟩
    simp [kwPrefixed_kwKey, strTail3_kwKey]

/-! Claim theorems. -/

/-- C4 counterexample: the generated rpc_id is not the URL-safe base64
encoding of the identifier bytes.  At the sample uuid1 value whose bits are
all ones apart from the version and variant fields, the id produced by the
constructor (standard base64) differs from the URL-safe encoding the claim
asserts, because it contains slash characters. -/
theorem c4_urlsafe_counterexample :
    (RpcMessage.init uuid1SampleBytes (.str "a") (.str "p") (.dict []) .none
      (.str "")).rpc_id ≠ .str (urlsafeB64encodeSpec uuid1SampleBytes) := by
  decide

/-- C4, corrected: an RpcMessage constructed without an rpc_id, or with a
falsy one, receives as rpc_id the STANDARD base64 encoding (alphabet
ending in plus and slash, with = padding) of the 16-byte time-ordered
uuid1 value, decoded as a string; a truthy supplied rpc_id is kept
unchanged. -/
theorem c4_rpc_id_generation :
    ∀ (u : List Nat) (api proc : PyVal) (kw : KwField) (rp rid : PyVal),
      (RpcMessage.init u api proc kw rp rid).rpc_id =
        (if rid.truthy then rid else .str (b64encode u)) := by
  intro u api proc kw rp rid
  rfl

/-- C6 counterexample: a ResultMessage constructed with a non-exception
result and an explicit error=True but no trace has error true and trace
None, refuting the claim that error being true implies trace is present on
every ResultMessage. -/
theorem c6_error_without_trace_counterexample :
    (ResultMessage.init (.val (.str "boom")) (.str "1") (.bool true) .none).error =
      .bool true ∧
    (ResultMessage.init (.val (.str "boom")) (.str "1") (.bool true) .none).trace =
      .none := by
  decide

/-- C6, corrected: a ResultMessage constructed from an exception-like value
has error True, result the stringified exception and a non-null trace
captured from the exception; one constructed from a non-exception value
carries exactly the result, error flag and trace the caller supplied (so a
caller can create error=True with trace=None: the invariant that error
implies a present trace holds only for exception-constructed results). -/
theorem c6_result_construction :
    ∀ (m tb : String) (v rid e t : PyVal),
      ((ResultMessage.init (.exc m tb) rid e t).error = .bool true ∧
       (ResultMessage.init (.exc m tb) rid e t).result = .str m ∧
       (ResultMessage.init (.exc m tb) rid e t).trace = .str tb ∧
       (ResultMessage.init (.exc m tb) rid e t).trace ≠ .none) ∧
      ((ResultMessage.init (.val v) rid e t).result = v ∧
       (ResultMessage.init (.val v) rid e t).error = e ∧
       (ResultMessage.init (.val v) rid e t).trace = t) := by
  intro m tb v rid e t
  refine ⟨⟨rfl, rfl, rfl, ?_⟩, rfl, rfl, rfl⟩
  intro hcontra
  exact PyVal.noConfusion hcontra

/-- C8: the default EventTransport.get_listener_group_key returns the
freshly generated uuid1 value and ignores the api name, the event name and
the options, so two invocations whose fresh uuids differ (as uuid1
guarantees) return distinct keys even on identical arguments, and no two
listener registrations are grouped by default. -/
theorem c8_default_group_key_fresh :
    ∀ (u₁ u₂ : Nat) (a₁ e₁ a₂ e₂ : String) (o₁ o₂ : Dict),
      u₁ ≠ u₂ →
      get_listener_group_key u₁ a₁ e₁ o₁ ≠ get_listener_group_key u₂ a₂ e₂ o₂ := by
  intro u₁ u₂ a₁ e₁ a₂ e₂ o₁ o₂ h
  exact h

/-- C8 witness: two calls with identical arguments but distinct fresh uuids
yield distinct keys. -/
theorem c8_default_group_key_fresh_witness :
    get_listener_group_key 0 "auth" "user_signup" [] ≠
      get_listener_group_key 1 "auth" "user_signup" [] :=
  c8_default_group_key_fresh 0 1 "auth" "user_signup" "auth" "user_signup" [] []
    (by decide)

/-- C9: Registry.add fails with the InvalidApiRegistryEntry message exactly
when handed a type object; on an instance it stores the surface under its
name, replacing any previous entry of that name in place (last-writer-wins)
and leaving every other key unchanged. -/
theorem c9_registry_add :
    ∀ (r : Registry) (e : RegArg) (a : Api) (k : String),
      (Registry.add r e = .error invalidRegistryEntryMsg ↔ e = .typeObj) ∧
      (Registry.add r (.inst a) = .ok (dictSet r a.name a)) ∧
      (regLookup (dictSet r a.name a) a.name = some a) ∧
      (k ≠ a.name → regLookup (dictSet r a.name a) k = regLookup r k) := by
  intro r e a k
  refine ⟨⟨?_, ?_⟩, rfl, regLookup_dictSet_self r a.name a, fun hk =>
    regLookup_dictSet_ne r a.name k a hk⟩
  · intro h
    cases e with
    | typeObj => rfl
    | inst b => exact Except.noConfusion h
  · intro h
    subst h
    rfl

/-- C9 witness: adding a type object to the concrete one-entry registry
fails, and adding an instance with an existing name replaces that entry
while an unrelated key is unchanged. -/
theorem c9_registry_add_witness :
    Registry.add [("svc", Api.mk "svc" 0)] .typeObj = .error invalidRegistryEntryMsg ∧
    Registry.add [("svc", Api.mk "svc" 0)] (.inst (Api.mk "svc" 1)) =
      .ok [("svc", Api.mk "svc" 1)] ∧
    regLookup (dictSet [("svc", Api.mk "svc" 0)] "svc" (Api.mk "svc" 1)) "svc" =
      some (Api.mk "svc" 1) ∧
    regLookup (dictSet [("svc", Api.mk "svc" 0)] "svc" (Api.mk "svc" 1)) "other" =
      regLookup [("svc", Api.mk "svc" 0)] "other" := by
  refine ⟨(c9_registry_add [("svc", Api.mk "svc" 0)] .typeObj (Api.mk "svc" 1)
    "other").1.2 rfl, ?_, ?_, ?_⟩
  · have h := (c9_registry_add [("svc", Api.mk "svc" 0)] .typeObj (Api.mk "svc" 1)
      "other").2.1
    rw [h]
    decide
  · exact (c9_registry_add [("svc", Api.mk "svc" 0)] .typeObj (Api.mk "svc" 1)
      "other").2.2.1
  · exact (c9_registry_add [("svc", Api.mk "svc" 0)] .typeObj (Api.mk "svc" 1)
      "other").2.2.2 (by decide)

/-- C10: evaluation of the kwargs defaults.  The constructor default
`Optional[None]` evaluates to the NoneType class, a truthy object, so an
EventMessage constructed with kwargs omitted keeps that sentinel (and its
to_dict raises, modelled as Option.none) instead of receiving the empty
dict the claim describes; an explicit kwargs=None is replaced by the empty
dict and to_dict then yields exactly the api_name and event_name entries;
an RpcMessage stores the sentinel unchanged with no normalization. -/
theorem c10_kwargs_default_evaluation :
    (EventMessage.init (.str "a") (.str "e") .sentinel).kwargs = .sentinel ∧
    (EventMessage.init (.str "a") (.str "e") .sentinel).to_dict = Option.none ∧
    (EventMessage.init (.str "a") (.str "e") .pynone).kwargs = .dict [] ∧
    (EventMessage.init (.str "a") (.str "e") .pynone).to_dict =
      some [("api_name", .str "a"), ("event_name", .str "e")] ∧
    (RpcMessage.init [] (.str "a") (.str "p") .sentinel .none (.str "x")).kwargs =
      .sentinel := by
  decide

/-- C1 counterexample: the ResultMessage constructed with a non-empty
result, rpc_id, error False and an explicit trace has all its required
fields non-empty, yet from_dict of its to_dict is not equal to it: the
success branch of to_dict drops the trace. -/
theorem c1_roundtrip_counterexample :
    ResultMessage.from_dict
        (ResultMessage.init (.val (.str "v")) (.str "1") (.bool false) (.str "t")).to_dict ≠
      .ok (ResultMessage.init (.val (.str "v")) (.str "1") (.bool false) (.str "t")) := by
  decide

/-- C1, corrected: for every well-formed envelope (required fields
non-empty; for ResultMessage additionally error a boolean, the result a
string on the error side, and — forced by the counterexample — trace equal
to None whenever error is False), from_dict of to_dict returns the original
message in every field, including kwargs and, for RpcMessage, return_path
and rpc_id. -/
theorem c1_envelope_roundtrip :
    ∀ (u : List Nat) (rm : RpcMessage) (d : Dict) (res : ResultMessage)
      (em : EventMessage) (d₂ : Dict),
      (wfRpc rm → rm.to_dict = some d → RpcMessage.from_dict u d = .ok rm) ∧
      (wfResult res → (res.error = .bool false → res.trace = .none) →
        ResultMessage.from_dict res.to_dict = .ok res) ∧
      (wfEvent em → em.to_dict = some d₂ → EventMessage.from_dict d₂ = .ok em) := by
  intro u rm d res em d₂
  refine ⟨?_, ?_, ?_⟩
  · intro hwf hd
    obtain ⟨rid, api, proc, kw, rp⟩ := rm
    obtain ⟨h₁, h₂, h₃, h₄⟩ := hwf
    cases kw with
    | sentinel => simp [RpcMessage.to_dict] at hd
    | pynone => simp [RpcMessage.to_dict] at hd
    | dict l =>
      simp only [RpcMessage.to_dict, Option.some.injEq] at hd
      rw [← hd]
      exact rpc_roundtrip_aux u rid api proc rp l h₁ h₂ h₃ h₄
  · intro hwf hamend
    obtain ⟨rid, res₀, er, tr⟩ := res
    exact result_roundtrip_aux rid res₀ er tr hwf hamend
  · intro hwf hd
    obtain ⟨api, ev, kw⟩ := em
    obtain ⟨h₁, h₂⟩ := hwf
    cases kw with
    | sentinel => simp [EventMessage.to_dict] at hd
    | pynone => simp [EventMessage.to_dict] at hd
    | dict l =>
      simp only [EventMessage.to_dict, Option.some.injEq] at hd
      rw [← hd]
      exact event_roundtrip_aux api ev l h₁ h₂

/-- C1 witness: the round trip evaluated on one concrete well-formed
envelope of each type. -/
theorem c1_envelope_roundtrip_witness :
    RpcMessage.from_dict []
        [("rpc_id", .str "id"), ("api_name", .str "a"), ("procedure_name", .str "p"),
         ("return_path", .str "rp"), ("kw:f", .str "1")] =
      .ok (RpcMessage.mk (.str "id") (.str "a") (.str "p")
        (.dict [("f", .str "1")]) (.str "rp")) ∧
    ResultMessage.from_dict
        (ResultMessage.mk (.str "1") (.str "v") (.bool false) .none).to_dict =
      .ok (ResultMessage.mk (.str "1") (.str "v") (.bool false) .none) ∧
    EventMessage.from_dict [("api_name", .str "a"), ("event_name", .str "e")] =
      .ok (EventMessage.mk (.str "a") (.str "e") (.dict [])) := by
  have h := c1_envelope_roundtrip []
    (RpcMessage.mk (.str "id") (.str "a") (.str "p") (.dict [("f", .str "1")]) (.str "rp"))
    [("rpc_id", .str "id"), ("api_name", .str "a"), ("procedure_name", .str "p"),
     ("return_path", .str "rp"), ("kw:f", .str "1")]
    (ResultMessage.mk (.str "1") (.str "v") (.bool false) .none)
    (EventMessage.mk (.str "a") (.str "e") (.dict []))
    [("api_name", .str "a"), ("event_name", .str "e")]
  refine ⟨h.1 ⟨rfl, rfl, rfl, rfl⟩ (by decide), h.2.1 ?_ ?_, h.2.2 ⟨rfl, rfl⟩ (by decide)⟩
  · exact ⟨rfl, rfl, Or.inr rfl, fun hc => absurd hc (by decide)⟩
  · intro h₀
    rfl

/-- C2 counterexample: a dictionary with rpc_id, api_name and
procedure_name but no return_path decodes successfully, and a
ResultMessage dictionary whose required values are all empty also decodes
successfully, refuting the claim that omitting return_path, omitting
error, or supplying empty required values fails with InvalidRpcMessage. -/
theorem c2_validation_counterexample :
    (RpcMessage.from_dict []
      [("rpc_id", .str "1"), ("api_name", .str "a"),
       ("procedure_name", .str "p")]).isOk = true ∧
    (ResultMessage.from_dict [("result", .str ""), ("rpc_id", .str "")]).isOk = true := by
  decide

/-- C2, corrected: RpcMessage.from_dict validates exactly rpc_id, api_name
and procedure_name — a missing or empty one of those fails with an
InvalidRpcMessage message naming that key, while return_path is read but
never validated; ResultMessage.from_dict checks only that result and
rpc_id are present (failing with a message naming the key), accepting
empty values and defaulting a missing error to False and a missing trace
to None; EventMessage.from_dict validates api_name and event_name for
presence and non-emptiness with a message naming the key. -/
theorem c2_required_key_validation :
    ∀ (u : List Nat) (d : Dict),
      (hasKey d "api_name" = false →
        RpcMessage.from_dict u d = .error (missingKeyMsg "api_name" d)) ∧
      (hasKey d "api_name" = true → hasKey d "procedure_name" = false →
        RpcMessage.from_dict u d = .error (missingKeyMsg "procedure_name" d)) ∧
      (hasKey d "api_name" = true → hasKey d "procedure_name" = true →
        hasKey d "rpc_id" = false →
        RpcMessage.from_dict u d = .error (missingKeyMsg "rpc_id" d)) ∧
      (hasKey d "api_name" = true → hasKey d "procedure_name" = true →
        hasKey d "rpc_id" = true → (dGet d "rpc_id" .none).truthy = false →
        RpcMessage.from_dict u d = .error (emptyKeyMsg "rpc_id" "RpcMessage")) ∧
      (hasKey d "api_name" = true → hasKey d "procedure_name" = true →
        hasKey d "rpc_id" = true → (dGet d "rpc_id" .none).truthy = true →
        (dGet d "api_name" .none).truthy = false →
        RpcMessage.from_dict u d = .error (emptyKeyMsg "api_name" "RpcMessage")) ∧
      (hasKey d "api_name" = true → hasKey d "procedure_name" = true →
        hasKey d "rpc_id" = true → (dGet d "rpc_id" .none).truthy = true →
        (dGet d "api_name" .none).truthy = true →
        (dGet d "procedure_name" .none).truthy = false →
        RpcMessage.from_dict u d = .error (emptyKeyMsg "procedure_name" "RpcMessage")) ∧
      (hasKey d "api_name" = true → hasKey d "procedure_name" = true →
        hasKey d "rpc_id" = true → (dGet d "rpc_id" .none).truthy = true →
        (dGet d "api_name" .none).truthy = true →
        (dGet d "procedure_name" .none).truthy = true →
        (RpcMessage.from_dict u d).isOk = true) ∧
      (hasKey d "result" = false →
        ResultMessage.from_dict d = .error (notPresentMsg "result" d)) ∧
      (hasKey d "result" = true → hasKey d "rpc_id" = false →
        ResultMessage.from_dict d = .error (notPresentMsg "rpc_id" d)) ∧
      (hasKey d "result" = true → hasKey d "rpc_id" = true →
        (ResultMessage.from_dict d).isOk = true) ∧
      (hasKey d "api_name" = false →
        EventMessage.from_dict d = .error (missingKeyMsg "api_name" d)) ∧
      (hasKey d "api_name" = true → hasKey d "event_name" = false →
        EventMessage.from_dict d = .error (missingKeyMsg "event_name" d)) ∧
      (hasKey d "api_name" = true → hasKey d "event_name" = true →
        (dGet d "api_name" .none).truthy = false →
        EventMessage.from_dict d = .error (emptyKeyMsg "api_name" "EventMessage")) ∧
      (hasKey d "api_name" = true → hasKey d "event_name" = true →
        (dGet d "api_name" .none).truthy = true →
        (dGet d "event_name" .none).truthy = false →
        EventMessage.from_dict d = .error (emptyKeyMsg "event_name" "EventMessage")) ∧
      (hasKey d "api_name" = true → hasKey d "event_name" = true →
        (dGet d "api_name" .none).truthy = true →
        (dGet d "event_name" .none).truthy = true →
        (EventMessage.from_dict d).isOk = true) := by
  intro u d
  refine ⟨?_, ?_, ?_, ?_, ?_, ?_, ?_, ?_, ?_, ?_, ?_, ?_, ?_, ?_, ?_⟩
  · intro h₁
    simp [RpcMessage.from_dict, h₁]
  · intro h₁ h₂
    simp [RpcMessage.from_dict, h₁, h₂]
  · intro h₁ h₂ h₃
    simp [RpcMessage.from_dict, h₁, h₂, h₃]
  · intro h₁ h₂ h₃ h₄
    simp [RpcMessage.from_dict, h₁, h₂, h₃, h₄]
  · intro h₁ h₂ h₃ h₄ h₅
    simp [RpcMessage.from_dict, h₁, h₂, h₃, h₄, h₅]
  · intro h₁ h₂ h₃ h₄ h₅ h₆
    simp [RpcMessage.from_dict, h₁, h₂, h₃, h₄, h₅, h₆]
  · intro h₁ h₂ h₃ h₄ h₅ h₆
    simp [RpcMessage.from_dict, h₁, h₂, h₃, h₄, h₅, h₆, Except.isOk, Except.toBool]
  · intro h₁
    simp [ResultMessage.from_dict, h₁]
  · intro h₁ h₂
    simp [ResultMessage.from_dict, h₁, h₂]
  · intro h₁ h₂
    simp [ResultMessage.from_dict, h₁, h₂, Except.isOk, Except.toBool]
  · intro h₁
    simp [EventMessage.from_dict, h₁]
  · intro h₁ h₂
    simp [EventMessage.from_dict, h₁, h₂]
  · intro h₁ h₂ h₃
    simp [EventMessage.from_dict, h₁, h₂, h₃]
  · intro h₁ h₂ h₃ h₄
    simp [EventMessage.from_dict, h₁, h₂, h₃, h₄]
  · intro h₁ h₂ h₃ h₄
    simp [EventMessage.from_dict, h₁, h₂, h₃, h₄, Except.isOk, Except.toBool]

/-- C2 witness: the validation evaluated on concrete dictionaries, one per
missing-key and empty-value branch. -/
theorem c2_required_key_validation_witness :
    RpcMessage.from_dict [] [("rpc_id", .str "1")] =
      .error (missingKeyMsg "api_name" [("rpc_id", .str "1")]) ∧
    RpcMessage.from_dict []
        [("rpc_id", .str ""), ("api_name", .str "a"), ("procedure_name", .str "p")] =
      .error (emptyKeyMsg "rpc_id" "RpcMessage") ∧
    ResultMessage.from_dict [("rpc_id", .str "1")] =
      .error (notPresentMsg "result" [("rpc_id", .str "1")]) ∧
    EventMessage.from_dict [("api_name", .str "a"), ("event_name", .str "")] =
      .error (emptyKeyMsg "event_name" "EventMessage") := by
  refine ⟨(c2_required_key_validation [] [("rpc_id", .str "1")]).1 (by decide),
    ?_, ?_, ?_⟩
  · exact (c2_required_key_validation []
      [("rpc_id", .str ""), ("api_name", .str "a"), ("procedure_name", .str "p")]).2.2.2.1
      (by decide) (by decide) (by decide) (by decide)
  · exact (c2_required_key_validation [] [("rpc_id", .str "1")]).2.2.2.2.2.2.2.1
      (by decide)
  · exact (c2_required_key_validation []
      [("api_name", .str "a"), ("event_name", .str "")]).2.2.2.2.2.2.2.2.2.2.2.2.2.1
      (by decide) (by decide) (by decide) (by decide)

/-- C3: in the consumption context, the acknowledgement action appears in
the trace exactly when every message of the fetched batch was handled
successfully and no cancellation struck inside the batch; in that case the
trace is the fetch, the handling of every message in order, and the
acknowledgement last, so consumption_complete runs only after successful
handling of the whole batch and is never sent on failure or mid-batch
cancellation. -/
theorem c3_ack_only_after_success :
    ∀ (handler : EventMessage → Bool) (cancelAt : Option Nat)
      (events : List EventMessage) (tok : Nat),
      (CtxAction.acked tok ∈ runConsumption handler cancelAt events tok ↔
        ((∀ e ∈ events, handler e = true) ∧
          ∀ j, j < events.length → cancelAt ≠ some j)) ∧
      (((∀ e ∈ events, handler e = true) ∧
          ∀ j, j < events.length → cancelAt ≠ some j) →
        runConsumption handler cancelAt events tok =
          CtxAction.fetched events tok ::
            (events.map CtxAction.handled ++ [CtxAction.acked tok])) := by
  intro h c es tok
  have hzero : ((∀ e ∈ es, h e = true) ∧ ∀ j, j < es.length → c ≠ some (0 + j)) ↔
      ((∀ e ∈ es, h e = true) ∧ ∀ j, j < es.length → c ≠ some j) := by
    constructor
    · rintro ⟨ha, hj⟩
      exact ⟨ha, fun j hjl => by have := hj j hjl; rwa [Nat.zero_add] at this⟩
    · rintro ⟨ha, hj⟩
      exact ⟨ha, fun j hjl => by rw [Nat.zero_add]; exact hj j hjl⟩
  constructor
  · rw [runConsumption]
    constructor
    · intro hmem
      rcases List.mem_append.1 hmem with hmem₀ | hmem₀
      · rcases List.mem_cons.1 hmem₀ with heq | hmem₁
        · exact CtxAction.noConfusion heq
        · exact absurd hmem₁ (handleLoop_acked_not_mem h c es 0 tok)
      · by_cases hok : (handleLoop h c 0 es).2 = true
        · rw [← hzero]
          exact (handleLoop_ok_iff h c es 0).1 hok
        · rw [if_neg hok] at hmem₀
          exact absurd hmem₀ (List.not_mem_nil _)
    · intro hr
      have hok : (handleLoop h c 0 es).2 = true :=
        (handleLoop_ok_iff h c es 0).2 (hzero.2 hr)
      rw [if_pos hok]
      exact List.mem_append_right _ (List.mem_singleton.2 rfl)
  · intro hr
    have hok : (handleLoop h c 0 es).2 = true :=
      (handleLoop_ok_iff h c es 0).2 (hzero.2 hr)
    rw [runConsumption]
    rw [if_pos hok, handleLoop_success_shape h c es 0 hok]
    rfl

/-- C3 witness: a two-event batch whose handler succeeds and which is not
cancelled is fetched, handled in order and acknowledged. -/
theorem c3_ack_only_after_success_witness :
    runConsumption (fun _ => true) Option.none
        [EventMessage.mk (.str "a") (.str "e") (.dict []),
         EventMessage.mk (.str "a") (.str "f") (.dict [])] 7 =
      CtxAction.fetched
          [EventMessage.mk (.str "a") (.str "e") (.dict []),
           EventMessage.mk (.str "a") (.str "f") (.dict [])] 7 ::
        ([EventMessage.mk (.str "a") (.str "e") (.dict []),
          EventMessage.mk (.str "a") (.str "f") (.dict [])].map CtxAction.handled ++
          [CtxAction.acked 7]) :=
  (c3_ack_only_after_success (fun _ => true) Option.none
    [EventMessage.mk (.str "a") (.str "e") (.dict []),
     EventMessage.mk (.str "a") (.str "f") (.dict [])] 7).2
    ⟨fun _ _ => rfl, fun j _ => by simp⟩

/-- C5: over any sequence of add operations on instances, get succeeds on a
name exactly when some added surface bore that name, failing otherwise with
the UnknownApi message; immediately after adding a surface, get on its name
returns that same instance (also when the add replaced an earlier surface
of the same name) and all() lists the instance exactly once. -/
theorem c5_registry_get_iff_add :
    ∀ (ops : List Api) (name : String) (s : Api),
      ((∃ a ∈ ops, a.name = name) →
        ∃ a, Registry.get (applyAdds ops) name = .ok a) ∧
      ((¬ ∃ a ∈ ops, a.name = name) →
        Registry.get (applyAdds ops) name = .error (unknownApiMsg name)) ∧
      (Registry.get (applyAdds (ops ++ [s])) s.name = .ok s) ∧
      ((applyAdds (ops ++ [s])).allApis.count s = 1) := by
  intro ops name s
  have hiff := regLookup_foldl ops [] name
  rw [show (regLookup [] name) = Option.none from rfl] at hiff
  simp only [Option.isSome_none, Bool.false_eq_true, false_or] at hiff
  refine ⟨?_, ?_, ?_, ?_⟩
  · intro hex
    have hs : (regLookup (applyAdds ops) name).isSome = true := by
      rw [applyAdds, hiff]
      exact hex
    cases hl : regLookup (applyAdds ops) name with
    | none => rw [hl] at hs; exact absurd hs (by simp)
    | some a =>
      refine ⟨a, ?_⟩
      rw [Registry.get, hl]
  · intro hne
    have hs : ¬ (regLookup (applyAdds ops) name).isSome = true := by
      rw [applyAdds, hiff]
      exact hne
    cases hl : regLookup (applyAdds ops) name with
    | none => rw [Registry.get, hl]
    | some a => rw [hl] at hs; simp at hs
  · rw [applyAdds_append_one, Registry.get, regLookup_dictSet_self]
  · rw [applyAdds_append_one]
    exact count_allApis_dictSet (applyAdds ops) s (regWF_applyAdds ops)

/-- C5 witness: after adding two surfaces of the same name, get returns the
second instance, all() lists it exactly once, and an absent name fails. -/
theorem c5_registry_get_iff_add_witness :
    (∃ a, Registry.get (applyAdds [Api.mk "svc" 0, Api.mk "svc" 1]) "svc" = .ok a) ∧
    Registry.get (applyAdds [Api.mk "svc" 0]) "other" = .error (unknownApiMsg "other") ∧
    Registry.get (applyAdds ([Api.mk "svc" 0] ++ [Api.mk "svc" 1])) "svc" =
      .ok (Api.mk "svc" 1) ∧
    (applyAdds ([Api.mk "svc" 0] ++ [Api.mk "svc" 1])).allApis.count (Api.mk "svc" 1) = 1 := by
  refine ⟨(c5_registry_get_iff_add [Api.mk "svc" 0, Api.mk "svc" 1] "svc"
    (Api.mk "svc" 1)).1 ⟨Api.mk "svc" 0, by simp⟩, ?_, ?_, ?_⟩
  · exact (c5_registry_get_iff_add [Api.mk "svc" 0] "other" (Api.mk "svc" 1)).2.1
      (by simp [Api.mk.injEq])
  · exact (c5_registry_get_iff_add [Api.mk "svc" 0] "svc" (Api.mk "svc" 1)).2.2.1
  · exact (c5_registry_get_iff_add [Api.mk "svc" 0] "svc" (Api.mk "svc" 1)).2.2.2

/-- C7: to_dict of RpcMessage and EventMessage encodes each keyword
argument pair under the key obtained by prefixing the three characters kw
and colon to the argument name, and on decode a pair belongs to the
extracted kwargs exactly when the dictionary holds it under the prefixed
key — so exactly the `kw:`-prefixed top-level keys, stripped of the
prefix, contribute to the kwargs that from_dict stores. -/
theorem c7_kw_prefix_encoding :
    ∀ (u : List Nat) (rm : RpcMessage) (l : List (String × PyVal)) (d : Dict)
      (em : EventMessage) (l₂ : List (String × PyVal)) (d₂ : Dict) (dd : Dict)
      (k : String) (v : PyVal) (m : RpcMessage) (m₂ : EventMessage),
      (kwKey k = "kw:" ++ k) ∧
      ((k, v) ∈ extractKw dd ↔ (kwKey k, v) ∈ dd) ∧
      (rm.kwargs = .dict l → rm.to_dict = some d →
        ∀ k₀ v₀, (k₀, v₀) ∈ l → (kwKey k₀, v₀) ∈ d) ∧
      (em.kwargs = .dict l₂ → em.to_dict = some d₂ →
        ∀ k₀ v₀, (k₀, v₀) ∈ l₂ → (kwKey k₀, v₀) ∈ d₂) ∧
      (RpcMessage.from_dict u dd = .ok m → m.kwargs = .dict (extractKw dd)) ∧
      (EventMessage.from_dict dd = .ok m₂ → m₂.kwargs = .dict (extractKw dd)) := by
  intro u rm l d em l₂ d₂ dd k v m m₂
  refine ⟨kwKey_eq_append k, mem_extractKw_iff dd k v, ?_, ?_, ?_, ?_⟩
  · intro hkw hd k₀ v₀ hmem
    obtain ⟨rid, api, proc, kw, rp⟩ := rm
    have he : kw = KwField.dict l := hkw
    subst he
    simp only [RpcMessage.to_dict, Option.some.injEq] at hd
    rw [← hd]
    refine List.mem_append_right _ ?_
    have := List.mem_map_of_mem (fun kv => (kwKey kv.1, kv.2)) hmem
    exact this
  · intro hkw hd k₀ v₀ hmem
    obtain ⟨api, ev, kw⟩ := em
    have he : kw = KwField.dict l₂ := hkw
    subst he
    simp only [EventMessage.to_dict, Option.some.injEq] at hd
    rw [← hd]
    refine List.mem_append_right _ ?_
    have := List.mem_map_of_mem (fun kv => (kwKey kv.1, kv.2)) hmem
    exact this
  · intro hok
    rw [RpcMessage.from_dict] at hok
    split_ifs at hok
    injection hok with he
    rw [← he]
    rfl
  · intro hok
    rw [EventMessage.from_dict] at hok
    split_ifs at hok
    injection hok with he
    rw [← he, eventInit_dict]

/-- C7 witness: the decoding evaluated on concrete dictionaries — the pair
under the prefixed key is extracted, and the kwargs stored by from_dict on
a concrete dictionary are its extracted `kw:` entries. -/
theorem c7_kw_prefix_encoding_witness :
    ("f", PyVal.str "1") ∈
      extractKw [("api_name", PyVal.str "a"), ("kw:f", PyVal.str "1")] ∧
    (RpcMessage.mk (.str "1") (.str "a") (.str "p") (.dict [("f", .str "1")])
        PyVal.none).kwargs =
      .dict (extractKw [("rpc_id", PyVal.str "1"), ("api_name", PyVal.str "a"),
        ("procedure_name", PyVal.str "p"), ("kw:f", PyVal.str "1")]) := by
  refine ⟨(c7_kw_prefix_encoding [] (RpcMessage.mk (.str "1") (.str "a") (.str "p")
    (.dict []) .none) [] [] (EventMessage.mk (.str "a") (.str "e") (.dict [])) [] []
    [("api_name", PyVal.str "a"), ("kw:f", PyVal.str "1")] "f" (PyVal.str "1")
    (RpcMessage.mk (.str "1") (.str "a") (.str "p") (.dict []) .none)
    (EventMessage.mk (.str "a") (.str "e") (.dict []))).2.1.mpr (by decide), ?_⟩
  exact (c7_kw_prefix_encoding [] (RpcMessage.mk (.str "1") (.str "a") (.str "p")
    (.dict []) .none) [] [] (EventMessage.mk (.str "a") (.str "e") (.dict [])) [] []
    [("rpc_id", PyVal.str "1"), ("api_name", PyVal.str "a"),
     ("procedure_name", PyVal.str "p"), ("kw:f", PyVal.str "1")] "f" (PyVal.str "1")
    (RpcMessage.mk (.str "1") (.str "a") (.str "p") (.dict [("f", .str "1")]) PyVal.none)
    (EventMessage.mk (.str "a") (.str "e") (.dict []))).2.2.2.2.1 (by decide)

end Lightbus
